import Mathlib

/-!
Verification of the aggregation and caching core of the CIFR options
portfolio monitor (`src/app.py`).

Python floats are modelled as `ℚ` (the claims concern exact arithmetic and
presence/absence, not rounding).  A Python value that may be `None` is an
`Option`.  A raised exception is the `Except.error` case of `Except Unit _`.
Network calls are oracles passed as parameters: `gather_data` receives the
result of `fetch_stock_price` and, per position, the result of
`fetch_option`, each of which is either a raised exception or a value.
Python truthiness of a float `x` is `x ≠ 0`; of `None` it is false; of a
dict it is true.
-/

/-- A field of a JSON row as Python sees it via `dict.get`: the key may be
missing, present with value `null`, or present with a string value
(the chain response maps each field name to string or null). -/
inductive JField where
  | missing : JField
  | null : JField
  | str : String → JField
deriving DecidableEq, Repr

/-- `row.get(k)` with no default: `None` when the key is missing or the
value is `null`, the string otherwise. -/
def JField.getOpt : JField → Option String
  | .missing => none
  | .null => none
  | .str s => some s

/-- `row.get(k, d)`: the default `d` when the key is missing, `None` when
the value is `null`, the string otherwise. -/
def JField.getD (f : JField) (d : String) : Option String :=
  match f with
  | .missing => some d
  | .null => none
  | .str s => some s

/-- One row of the option-chain response (`data.table.rows[i]`): the
fields `gather_data` reads from it. -/
structure OptionRow where
  strike : JField
  c_Bid : JField
  c_Ask : JField
  c_Last : JField
  c_Volume : JField
  c_Openinterest : JField
deriving DecidableEq, Repr

/-- `fetch_option`'s row selection (src/app.py:67): the first row whose
`strike` field equals the requested strike string, else `None`. -/
def fetch_option (rows : List OptionRow) (strike : String) : Option OptionRow :=
  rows.find? (fun r => r.strike.getOpt = some strike)

/-- Value of a digit string, most significant first (helper for the model
of Python `float`). -/
def digitsVal (l : List Char) : ℕ :=
  l.foldl (fun a c => 10 * a + (c.toNat - 48)) 0

/-- Model of Python `float(s)` on its decimal-literal fragment
`[+|-] digits [. digits]` with at least one digit: `some` of the exact
rational value, `none` when `float` would raise `ValueError`.
(Exponents, `inf`/`nan` and surrounding whitespace are not modelled; no
claim exercises them.) -/
def pyFloat (s : String) : Option ℚ :=
  let l := s.toList
  let sl : ℚ × List Char :=
    match l with
    | '-' :: t => (-1, t)
    | '+' :: t => (1, t)
    | _ => (1, l)
  let intPart := sl.2.takeWhile Char.isDigit
  let rest := sl.2.drop intPart.length
  match rest with
  | [] => if intPart = [] then none else some (sl.1 * digitsVal intPart)
  | '.' :: frac =>
    let fracD := frac.takeWhile Char.isDigit
    if frac.drop fracD.length ≠ [] then none
    else if intPart = [] ∧ fracD = [] then none
    else some (sl.1 * ((digitsVal intPart : ℚ) + (digitsVal fracD : ℚ) / 10 ^ fracD.length))
  | _ => none

/-- `parse_val` (src/app.py:70-76): `None`, `"--"` and `""` become `None`;
otherwise `float(v)`, with `ValueError` caught and turned into `None`. -/
def parse_val (v : Option String) : Option ℚ :=
  match v with
  | none => none
  | some s => if s = "--" ∨ s = "" then none else pyFloat s

/-- A static position (an entry of `POSITIONS`, src/app.py:23-30). -/
structure PositionSpec where
  label : String
  strike : String
  strike_num : ℚ
  expiry : String
  contracts : ℕ
  cost_per : ℚ
  fromdate : String
  todate : String
deriving DecidableEq, Repr

/-- The `POSITIONS` list (src/app.py:23-30). -/
def POSITIONS : List PositionSpec :=
  [ { label := "Nov 20 26 13 Call", strike := "13.00", strike_num := 13,
      expiry := "2026-11-20", contracts := 220, cost_per := 5.007,
      fromdate := "2026-11-20", todate := "2026-11-20" },
    { label := "Jun 18 26 15 Call", strike := "15.00", strike_num := 15,
      expiry := "2026-06-18", contracts := 105, cost_per := 5.054,
      fromdate := "2026-06-18", todate := "2026-06-18" },
    { label := "Oct 16 26 16 Call", strike := "16.00", strike_num := 16,
      expiry := "2026-10-16", contracts := 134, cost_per := 6.658,
      fromdate := "2026-10-16", todate := "2026-10-16" } ]

/-- `TOTAL_COST_BASIS` (src/app.py:31). -/
def TOTAL_COST_BASIS : ℚ := 252425

/-- `CACHE_TTL` in seconds (src/app.py:41). -/
def CACHE_TTL : ℚ := 120

/-- The raw market fields of one position after the fetch/except block
(src/app.py:93-102): a raised exception or an absent row yields `None`
for bid/ask/last and the string `"--"` for volume and open interest. -/
structure RawFields where
  bid : Option ℚ
  ask : Option ℚ
  last : Option ℚ
  vol : Option String
  oi : Option String
deriving DecidableEq, Repr

/-- Lines 93-102 of `gather_data`: the per-position try/except around
`fetch_option` and the field extraction. -/
def rawFields (fetchRes : Except Unit (Option OptionRow)) : RawFields :=
  match fetchRes with
  | .error _ => ⟨none, none, none, some "--", some "--"⟩
  | .ok none => ⟨none, none, none, some "--", some "--"⟩
  | .ok (some m) =>
      ⟨parse_val m.c_Bid.getOpt, parse_val m.c_Ask.getOpt,
       parse_val m.c_Last.getOpt, m.c_Volume.getD "--", m.c_Openinterest.getD "--"⟩

/-- `mid = (bid + ask) / 2 if bid and ask else last` (src/app.py:104):
Python truthiness makes a zero bid or ask fall through to `last`. -/
def mid_of (bid ask last : Option ℚ) : Option ℚ :=
  match bid, ask with
  | some b, some a => if b ≠ 0 ∧ a ≠ 0 then some ((b + a) / 2) else last
  | _, _ => last

/-- `value = contracts * mid * 100 if mid else None` (src/app.py:106). -/
def value_of (contracts : ℕ) (mid : Option ℚ) : Option ℚ :=
  match mid with
  | some m => if m ≠ 0 then some ((contracts : ℚ) * m * 100) else none
  | none => none

/-- `pnl = value - cost_basis if value else None` (src/app.py:107). -/
def pnl_of (value : Option ℚ) (cost_basis : ℚ) : Option ℚ :=
  match value with
  | some v => if v ≠ 0 then some (v - cost_basis) else none
  | none => none

/-- `pnl_pct = pnl / cost_basis if pnl is not None else None`
(src/app.py:108). -/
def pnl_pct_of (pnl : Option ℚ) (cost_basis : ℚ) : Option ℚ :=
  pnl.map (fun p => p / cost_basis)

/-- `intrinsic = max(0, stock_price - strike_num) if stock_price else None`
(src/app.py:110). -/
def intrinsic_of (stock_price : Option ℚ) (strike_num : ℚ) : Option ℚ :=
  match stock_price with
  | some s => if s ≠ 0 then some (max 0 (s - strike_num)) else none
  | none => none

/-- `time_val = max(0, mid - intrinsic) if mid and intrinsic is not None
else None` (src/app.py:111). -/
def time_val_of (mid intrinsic : Option ℚ) : Option ℚ :=
  match mid, intrinsic with
  | some m, some i => if m ≠ 0 then some (max 0 (m - i)) else none
  | _, _ => none

/-- The per-position result dict appended to `results`
(src/app.py:113-118). -/
structure PositionResult where
  spec : PositionSpec
  bid : Option ℚ
  ask : Option ℚ
  last : Option ℚ
  mid : Option ℚ
  vol : Option String
  oi : Option String
  cost_basis : ℚ
  value : Option ℚ
  pnl : Option ℚ
  pnl_pct : Option ℚ
  dte : ℤ
  intrinsic : Option ℚ
  time_val : Option ℚ
deriving DecidableEq, Repr

/-- The body of the `for pos in POSITIONS` loop (src/app.py:92-118) for
one position.  `fetchRes` is the outcome of `fetch_option` (a raised
exception, no matching row, or a row); `dte` is the value of
`days_until(pos.expiry)`, which depends on the wall-clock date. -/
def computePosition (pos : PositionSpec) (stock_price : Option ℚ)
    (fetchRes : Except Unit (Option OptionRow)) (dte : ℤ) : PositionResult :=
  let f := rawFields fetchRes
  let mid := mid_of f.bid f.ask f.last
  let cost_basis := (pos.contracts : ℚ) * pos.cost_per * 100
  let value := value_of pos.contracts mid
  let pnl := pnl_of value cost_basis
  let pnl_pct := pnl_pct_of pnl cost_basis
  let intrinsic := intrinsic_of stock_price pos.strike_num
  let time_val := time_val_of mid intrinsic
  ⟨pos, f.bid, f.ask, f.last, mid, f.vol, f.oi, cost_basis, value, pnl,
   pnl_pct, dte, intrinsic, time_val⟩

/-- The whole `for` loop: every position is computed from its own fetch
result, independently of the others. -/
def gatherResults (stock_price : Option ℚ)
    (fetch : PositionSpec → Except Unit (Option OptionRow))
    (dayFn : String → ℤ) (positions : List PositionSpec) : List PositionResult :=
  positions.map (fun pos => computePosition pos stock_price (fetch pos) (dayFn pos.expiry))

/-- `total_value = sum(r["value"] for r in results if r["value"])`
(src/app.py:120): the generator filter is Python truthiness, so a present
value of `0.0` would be skipped. -/
def total_value (results : List PositionResult) : ℚ :=
  (results.filterMap (fun r =>
    match r.value with
    | some v => if v ≠ 0 then some v else none
    | none => none)).sum

/-- Spec-side reading of the total ("sum of all present position values,
treating absent values as zero"): filters on presence, not truthiness.
Used only to compare with `total_value`. -/
def total_value_present (results : List PositionResult) : ℚ :=
  (results.filterMap (fun r => r.value)).sum

/-- The aggregate dict `d` built by `gather_data` (src/app.py:124-131). -/
structure Aggregate where
  stock_price : Option ℚ
  positions : List PositionResult
  total_value : ℚ
  total_pnl : ℚ
  total_pnl_pct : ℚ
  timestamp : String
deriving DecidableEq, Repr

/-- Lines 120-131: the aggregate built from a successful pass. -/
def mkAggregate (stock_price : Option ℚ)
    (fetch : PositionSpec → Except Unit (Option OptionRow))
    (dayFn : String → ℤ) (ts : String) : Aggregate :=
  let results := gatherResults stock_price fetch dayFn POSITIONS
  let tv := total_value results
  { stock_price := stock_price, positions := results, total_value := tv,
    total_pnl := tv - TOTAL_COST_BASIS,
    total_pnl_pct := (tv - TOTAL_COST_BASIS) / TOTAL_COST_BASIS,
    timestamp := ts }

/-- The module-level `_cache` dict (src/app.py:40): `data` starts as
`None`, `time` as `0`. -/
structure Cache where
  data : Option Aggregate
  time : ℚ
deriving DecidableEq, Repr

/-- `gather_data` (src/app.py:84-135).  Inputs beyond the cache and the
clock are the oracles for the two network calls and the timestamp string.
Returns the served value (or the propagated exception) together with the
cache as it stands afterwards: the cache is written only on the success
path (lines 133-134), so an exception leaves it untouched. -/
def gather_data (cache : Cache) (now : ℚ)
    (quoteFetch : Except Unit (Option ℚ))
    (fetch : PositionSpec → Except Unit (Option OptionRow))
    (dayFn : String → ℤ) (ts : String) : Except Unit Aggregate × Cache :=
  match cache.data with
  | some d =>
      if now - cache.time < CACHE_TTL then (.ok d, cache)
      else
        match quoteFetch with
        | .error e => (.error e, cache)
        | .ok sp =>
            let agg := mkAggregate sp fetch dayFn ts
            (.ok agg, ⟨some agg, now⟩)
  | none =>
      match quoteFetch with
      | .error e => (.error e, cache)
      | .ok sp =>
          let agg := mkAggregate sp fetch dayFn ts
          (.ok agg, ⟨some agg, now⟩)

/-- The literal pattern `data-last-price="` searched by
`fetch_stock_price` (src/app.py:55). -/
def lastPricePat : List Char := "data-last-price=".toList ++ ['\"']

/-- One attempt of the regex `data-last-price="([^"]+)"` at the head of
`s`: the literal, then a nonempty run of non-quote characters, then a
closing quote. -/
def tryMatchAt (s : List Char) : Option String :=
  if lastPricePat.isPrefixOf s then
    let t := s.drop lastPricePat.length
    let run := t.takeWhile (fun c => c ≠ '\"')
    if run ≠ [] ∧ (t.drop run.length).head? = some '\"' then some run.asString
    else none
  else none

/-- `re.search` semantics for that pattern: leftmost successful match. -/
def searchList : List Char → Option String
  | [] => none
  | c :: rest =>
      match tryMatchAt (c :: rest) with
      | some r => some r
      | none => searchList rest

/-- The capture group of `re.search(r'data-last-price="([^"]+)"', html)`,
or `None` when the pattern does not match (src/app.py:55). -/
def extract_last_price (html : String) : Option String :=
  searchList html.toList

/-- `fetch_stock_price` (src/app.py:50-56) applied to a response body that
was received: `None` when the pattern does not match, otherwise
`float(m.group(1))` — which raises `ValueError` (modelled as
`Except.error`) when the captured text is not numeric. -/
def fetch_stock_price (html : String) : Except Unit (Option ℚ) :=
  match extract_last_price html with
  | none => .ok none
  | some s =>
      match pyFloat s with
      | some x => .ok (some x)
      | none => .error ()

/-- The first entry of `POSITIONS`, used as a concrete test position. -/
def samplePos : PositionSpec :=
  { label := "Nov 20 26 13 Call", strike := "13.00", strike_num := 13,
    expiry := "2026-11-20", contracts := 220, cost_per := 5.007,
    fromdate := "2026-11-20", todate := "2026-11-20" }

/-- A chain row whose only quote is a last-trade price of zero. -/
def rowLastZero : OptionRow :=
  ⟨.str "13.00", .null, .null, .str "0", .null, .null⟩

/-- A placeholder aggregate used as a concrete cached entry. -/
def sampleAgg : Aggregate := ⟨none, [], 0, 0, 0, "t0"⟩

/-- C1, counterexample.  The claim says that when exactly one of bid, ask,
last is present the mid equals that value, and that whenever bid and ask
are both present the mid is their average.  On the code
(`mid = (bid + ask) / 2 if bid and ask else last`), a present bid of `1`
with ask and last absent yields an absent mid, and a present-but-zero bid
of `0` with ask `4` and last `3` yields `3`, not `(0 + 4) / 2 = 2`. -/
theorem C1_counterexample :
    mid_of (some 1) none none = none ∧
    mid_of (some 1) none none ≠ some 1 ∧
    mid_of (some 0) (some 4) (some 3) = some 3 ∧
    mid_of (some 0) (some 4) (some 3) ≠ some ((0 + 4) / 2) := by
  refine ⟨rfl, by simp [mid_of], by simp [mid_of], ?_⟩
  simp only [mid_of]
  norm_num

/-- C1, amended: the mid is `(bid + ask) / 2` when bid and ask are both
present and both nonzero; in every other case it equals the last-trade
value — so it equals last when only last is present, and is absent when
only bid or only ask is present or when all three are absent. -/
theorem C1_mid_fallback (last : Option ℚ) (b a : ℚ) :
    (b ≠ 0 → a ≠ 0 → mid_of (some b) (some a) last = some ((b + a) / 2)) ∧
    (b = 0 ∨ a = 0 → mid_of (some b) (some a) last = last) ∧
    mid_of (some b) none last = last ∧
    mid_of none (some a) last = last ∧
    mid_of none none last = last := by
  refine ⟨fun hb ha => by simp [mid_of, hb, ha], fun h => ?_, rfl, rfl, rfl⟩
  rcases h with h | h <;> simp [mid_of, h]

/-- Witness for `C1_mid_fallback` at bid 4, ask 6, last 1, and at a zero
bid. -/
theorem C1_mid_fallback_witness :
    mid_of (some 4) (some 6) (some 1) = some 5 ∧
    mid_of (some 0) (some 6) (some 1) = some 1 := by
  constructor
  · have h := (C1_mid_fallback (some 1) 4 6).1 (by norm_num) (by norm_num)
    rw [h]; norm_num
  · exact (C1_mid_fallback (some 1) 0 6).2.1 (Or.inl rfl)

/-- C9: a present-but-zero bid or ask makes the mid fall through to the
last-trade value instead of the average, and a position computation whose
mid is the present value `0` has absent value, P&L and P&L percent: the
calculator treats zero-valued market data like absent data. -/
theorem C9_zero_treated_as_absent (a : ℚ) (last : Option ℚ)
    (pos : PositionSpec) (sp : Option ℚ) (fetchRes : Except Unit (Option OptionRow))
    (dte : ℤ) (hmid : (computePosition pos sp fetchRes dte).mid = some 0) :
    mid_of (some 0) (some a) last = last ∧
    mid_of (some a) (some 0) last = last ∧
    (computePosition pos sp fetchRes dte).value = none ∧
    (computePosition pos sp fetchRes dte).pnl = none ∧
    (computePosition pos sp fetchRes dte).pnl_pct = none := by
  refine ⟨by simp [mid_of], by simp [mid_of], ?_, ?_, ?_⟩ <;>
    simp only [computePosition] at hmid ⊢ <;>
    rw [hmid] <;> simp [value_of, pnl_of, pnl_pct_of]

/-- Witness for `C9_zero_treated_as_absent`: a row whose only quote is a
last price of `0` produces a present mid equal to `0` and absent value,
P&L and P&L percent. -/
theorem C9_zero_treated_as_absent_witness :
    (computePosition samplePos none (.ok (some rowLastZero)) 0).value = none ∧
    (computePosition samplePos none (.ok (some rowLastZero)) 0).pnl = none ∧
    (computePosition samplePos none (.ok (some rowLastZero)) 0).pnl_pct = none := by
  have h := C9_zero_treated_as_absent 0 none samplePos none (.ok (some rowLastZero)) 0
    (by simp [computePosition, rawFields, rowLastZero, JField.getOpt, parse_val,
              pyFloat, digitsVal, mid_of])
  exact ⟨h.2.2.1, h.2.2.2.1, h.2.2.2.2⟩

/-- C2, counterexample.  The claim says value is absent iff mid is absent.
On the code (`value = contracts * mid * 100 if mid else None`), a position
whose only quote is a last price of `0` has a present mid equal to `0` but
an absent value. -/
theorem C2_counterexample :
    (computePosition samplePos none (.ok (some rowLastZero)) 0).mid = some 0 ∧
    (computePosition samplePos none (.ok (some rowLastZero)) 0).value = none ∧
    ¬ ((computePosition samplePos none (.ok (some rowLastZero)) 0).value = none ↔
       (computePosition samplePos none (.ok (some rowLastZero)) 0).mid = none) := by
  refine ⟨?_, ?_, ?_⟩ <;>
    simp [computePosition, rawFields, rowLastZero, JField.getOpt, parse_val,
          pyFloat, digitsVal, mid_of, value_of]

/-- C2, amended: for a position with a nonzero contract count, the value
is absent iff the mid is absent or equal to zero; the P&L is absent iff
the value is absent; and the P&L percent is absent iff the P&L is
absent. -/
theorem C2_absence_chain (pos : PositionSpec) (hc : pos.contracts ≠ 0)
    (sp : Option ℚ) (fetchRes : Except Unit (Option OptionRow)) (dte : ℤ) :
    ((computePosition pos sp fetchRes dte).value = none ↔
      ((computePosition pos sp fetchRes dte).mid = none ∨
       (computePosition pos sp fetchRes dte).mid = some 0)) ∧
    ((computePosition pos sp fetchRes dte).pnl = none ↔
      (computePosition pos sp fetchRes dte).value = none) ∧
    ((computePosition pos sp fetchRes dte).pnl_pct = none ↔
      (computePosition pos sp fetchRes dte).pnl = none) := by
  simp only [computePosition]
  rcases hm : mid_of (rawFields fetchRes).bid (rawFields fetchRes).ask
      (rawFields fetchRes).last with _ | m
  · simp [value_of, pnl_of, pnl_pct_of]
  · by_cases hm0 : m = 0
    · subst hm0; simp [value_of, pnl_of, pnl_pct_of]
    · have hv : (pos.contracts : ℚ) * m * 100 ≠ 0 := by
        simp [hm0, hc]
      simp [value_of, pnl_of, pnl_pct_of, hm0, hv]

/-- Witness for `C2_absence_chain` at the first configured position with
a failed fetch: mid, value, P&L and P&L percent are all absent, so every
biconditional holds with both sides true. -/
theorem C2_absence_chain_witness :
    ((computePosition samplePos none (.error ()) 0).value = none ↔
      ((computePosition samplePos none (.error ()) 0).mid = none ∨
       (computePosition samplePos none (.error ()) 0).mid = some 0)) ∧
    ((computePosition samplePos none (.error ()) 0).pnl = none ↔
      (computePosition samplePos none (.error ()) 0).value = none) ∧
    ((computePosition samplePos none (.error ()) 0).pnl_pct = none ↔
      (computePosition samplePos none (.error ()) 0).pnl = none) :=
  C2_absence_chain samplePos (by simp [samplePos]) none (.error ()) 0

/-- C5: two reads of `gather_data` while the stored entry's age is
strictly below `CACHE_TTL`, with no recomputation in between, both return
the identical stored aggregate (hence the identical generation timestamp)
and leave the cache unchanged.  The fetch oracles and timestamp arguments
are universally quantified and do not appear in the result, so no
fetching or recomputation takes place on either read. -/
theorem C5_cache_idempotent (cache : Cache) (d : Aggregate)
    (hd : cache.data = some d) (now1 now2 : ℚ)
    (h1 : now1 - cache.time < CACHE_TTL) (h2 : now2 - cache.time < CACHE_TTL)
    (q1 q2 : Except Unit (Option ℚ))
    (f1 f2 : PositionSpec → Except Unit (Option OptionRow))
    (day1 day2 : String → ℤ) (ts1 ts2 : String) :
    gather_data cache now1 q1 f1 day1 ts1 = (.ok d, cache) ∧
    gather_data cache now2 q2 f2 day2 ts2 = (.ok d, cache) := by
  constructor <;> simp [gather_data, hd, h1, h2]

/-- Witness for `C5_cache_idempotent`: a cache written at time `0` read
at times `10` and `50`, both inside the 120-second TTL. -/
theorem C5_cache_idempotent_witness :
    gather_data ⟨some sampleAgg, 0⟩ 10 (.error ()) (fun _ => .error ())
        (fun _ => 0) "t1" = (.ok sampleAgg, ⟨some sampleAgg, 0⟩) ∧
    gather_data ⟨some sampleAgg, 0⟩ 50 (.error ()) (fun _ => .error ())
        (fun _ => 0) "t2" = (.ok sampleAgg, ⟨some sampleAgg, 0⟩) :=
  C5_cache_idempotent ⟨some sampleAgg, 0⟩ sampleAgg rfl 10 50
    (by norm_num [CACHE_TTL]) (by norm_num [CACHE_TTL])
    (.error ()) (.error ()) (fun _ => .error ()) (fun _ => .error ())
    (fun _ => 0) (fun _ => 0) "t1" "t2"

/-- C3: when a read finds the cache empty or stale and the quote fetch
raises, the whole pass fails — the raised error is the returned outcome —
and the cache is left exactly as it was; a later read that finds the old
entry still fresh serves that stale entry unchanged. -/
theorem C3_failure_preserves_cache (cache : Cache) (now : ℚ)
    (hstale : cache.data = none ∨ CACHE_TTL ≤ now - cache.time)
    (fetch : PositionSpec → Except Unit (Option OptionRow))
    (dayFn : String → ℤ) (ts : String) :
    (gather_data cache now (.error ()) fetch dayFn ts).1 = .error () ∧
    (gather_data cache now (.error ()) fetch dayFn ts).2 = cache ∧
    (∀ (d : Aggregate) (now2 : ℚ) (q2 : Except Unit (Option ℚ))
       (f2 : PositionSpec → Except Unit (Option OptionRow))
       (day2 : String → ℤ) (ts2 : String),
       cache.data = some d → now2 - cache.time < CACHE_TTL →
       gather_data cache now2 q2 f2 day2 ts2 = (.ok d, cache)) := by
  refine ⟨?_, ?_, fun d now2 q2 f2 day2 ts2 hd h2 => by simp [gather_data, hd, h2]⟩ <;>
  · rcases hstale with h | h
    · simp [gather_data, h]
    · rcases hd : cache.data with _ | d
      · simp [gather_data, hd]
      · simp [gather_data, hd, not_lt.mpr h]

/-- Witness for `C3_failure_preserves_cache`: a cache written at time `0`,
read with a failing quote fetch at time `200` (stale, since the TTL is
`120`), then read again at time `50`. -/
theorem C3_failure_preserves_cache_witness :
    (gather_data ⟨some sampleAgg, 0⟩ 200 (.error ()) (fun _ => .error ())
        (fun _ => 0) "t1").1 = .error () ∧
    (gather_data ⟨some sampleAgg, 0⟩ 200 (.error ()) (fun _ => .error ())
        (fun _ => 0) "t1").2 = ⟨some sampleAgg, 0⟩ ∧
    gather_data ⟨some sampleAgg, 0⟩ 50 (.error ()) (fun _ => .error ())
        (fun _ => 0) "t2" = (.ok sampleAgg, ⟨some sampleAgg, 0⟩) := by
  have h := C3_failure_preserves_cache ⟨some sampleAgg, 0⟩ 200
    (Or.inr (by norm_num [CACHE_TTL])) (fun _ => .error ()) (fun _ => 0) "t1"
  exact ⟨h.1, h.2.1,
    h.2.2 sampleAgg 50 (.error ()) (fun _ => .error ()) (fun _ => 0) "t2" rfl
      (by norm_num [CACHE_TTL])⟩

/-- C7, counterexample.  The claim says a transport error raised by the
quote fetch does not abort the recomputation batch but is converted to an
absent underlying price.  On the code, `fetch_stock_price()` is called
outside any try block (src/app.py:89), so with an empty cache and a
raising quote fetch the pass returns the raised error — not the aggregate
that an absent underlying price would have produced. -/
theorem C7_counterexample :
    (gather_data ⟨none, 0⟩ 0 (.error ()) (fun _ => .ok none)
        (fun _ => 0) "t").1 = .error () ∧
    (gather_data ⟨none, 0⟩ 0 (.error ()) (fun _ => .ok none)
        (fun _ => 0) "t").1 ≠
      .ok (mkAggregate none (fun _ => .ok none) (fun _ => 0) "t") := by
  exact ⟨rfl, by simp [gather_data]⟩

/-- C7, amended: a transport error raised by a single position's
option-chain fetch is caught and converted to absence — that position's
bid, ask, last, mid and value are absent, volume and open interest are the
sentinel string, and the pass still completes with the full aggregate —
whereas a transport error raised by the quote fetch aborts the whole pass,
propagates to the caller, and leaves the cache untouched. -/
theorem C7_transport_error_routing (pos : PositionSpec) (sp : Option ℚ)
    (fetch : PositionSpec → Except Unit (Option OptionRow))
    (dayFn : String → ℤ) (hfail : fetch pos = .error ())
    (cache : Cache) (now : ℚ) (ts : String)
    (hstale : cache.data = none ∨ CACHE_TTL ≤ now - cache.time) :
    (computePosition pos sp (fetch pos) (dayFn pos.expiry)).bid = none ∧
    (computePosition pos sp (fetch pos) (dayFn pos.expiry)).ask = none ∧
    (computePosition pos sp (fetch pos) (dayFn pos.expiry)).last = none ∧
    (computePosition pos sp (fetch pos) (dayFn pos.expiry)).mid = none ∧
    (computePosition pos sp (fetch pos) (dayFn pos.expiry)).value = none ∧
    (computePosition pos sp (fetch pos) (dayFn pos.expiry)).vol = some "--" ∧
    (computePosition pos sp (fetch pos) (dayFn pos.expiry)).oi = some "--" ∧
    (gather_data cache now (.ok sp) fetch dayFn ts).1 =
      .ok (mkAggregate sp fetch dayFn ts) ∧
    gather_data cache now (.error ()) fetch dayFn ts = (.error (), cache) := by
  refine ⟨?_, ?_, ?_, ?_, ?_, ?_, ?_, ?_, ?_⟩
  · simp [computePosition, hfail, rawFields]
  · simp [computePosition, hfail, rawFields]
  · simp [computePosition, hfail, rawFields]
  · simp [computePosition, hfail, rawFields, mid_of]
  · simp [computePosition, hfail, rawFields, mid_of, value_of]
  · simp [computePosition, hfail, rawFields]
  · simp [computePosition, hfail, rawFields]
  · rcases hstale with h | h
    · simp [gather_data, h]
    · rcases hd : cache.data with _ | d
      · simp [gather_data, hd]
      · simp [gather_data, hd, not_lt.mpr h]
  · rcases hstale with h | h
    · simp [gather_data, h]
    · rcases hd : cache.data with _ | d
      · simp [gather_data, hd]
      · simp [gather_data, hd, not_lt.mpr h]

/-- Witness for `C7_transport_error_routing`: every position's fetch
raises, the cache is empty. -/
theorem C7_transport_error_routing_witness :
    (computePosition samplePos none (.error ()) 0).bid = none ∧
    (gather_data ⟨none, 0⟩ 0 (.ok none) (fun _ => .error ())
        (fun _ => 0) "t").1 =
      .ok (mkAggregate none (fun _ => .error ()) (fun _ => 0) "t") ∧
    gather_data ⟨none, 0⟩ 0 (.error ()) (fun _ => .error ())
        (fun _ => 0) "t" = (.error (), ⟨none, 0⟩) := by
  have h := C7_transport_error_routing samplePos none (fun _ => .error ())
    (fun _ => 0) rfl ⟨none, 0⟩ 0 "t" (Or.inl rfl)
  exact ⟨h.1, h.2.2.2.2.2.2.2.1, h.2.2.2.2.2.2.2.2⟩

/-- C4: a position whose option-chain fetch raises, or matches no row, has
absent bid, ask, last, mid, value and P&L and the sentinel volume and open
interest; `fetch_option` indeed returns no row when no row carries the
requested strike; changing that one position's fetch outcome does not
change any other position's result; and the pass still completes, its
aggregate carrying the portfolio totals. -/
theorem C4_per_position_isolation (sp : Option ℚ)
    (fetch : PositionSpec → Except Unit (Option OptionRow))
    (dayFn : String → ℤ) (pos : PositionSpec)
    (hfail : fetch pos = .error () ∨ fetch pos = .ok none)
    (cache : Cache) (now : ℚ) (ts : String)
    (hstale : cache.data = none ∨ CACHE_TTL ≤ now - cache.time) :
    ((computePosition pos sp (fetch pos) (dayFn pos.expiry)).bid = none ∧
     (computePosition pos sp (fetch pos) (dayFn pos.expiry)).ask = none ∧
     (computePosition pos sp (fetch pos) (dayFn pos.expiry)).last = none ∧
     (computePosition pos sp (fetch pos) (dayFn pos.expiry)).vol = some "--" ∧
     (computePosition pos sp (fetch pos) (dayFn pos.expiry)).oi = some "--" ∧
     (computePosition pos sp (fetch pos) (dayFn pos.expiry)).mid = none ∧
     (computePosition pos sp (fetch pos) (dayFn pos.expiry)).value = none ∧
     (computePosition pos sp (fetch pos) (dayFn pos.expiry)).pnl = none) ∧
    (∀ rows : List OptionRow, (∀ r ∈ rows, r.strike.getOpt ≠ some pos.strike) →
      fetch_option rows pos.strike = none) ∧
    (∀ (f2 : PositionSpec → Except Unit (Option OptionRow)),
      (∀ q, q ≠ pos → f2 q = fetch q) →
      ∀ q, q ≠ pos →
        computePosition q sp (f2 q) (dayFn q.expiry) =
          computePosition q sp (fetch q) (dayFn q.expiry)) ∧
    ((gather_data cache now (.ok sp) fetch dayFn ts).1 =
        .ok (mkAggregate sp fetch dayFn ts) ∧
     (mkAggregate sp fetch dayFn ts).positions =
        gatherResults sp fetch dayFn POSITIONS ∧
     (mkAggregate sp fetch dayFn ts).total_value =
        total_value (gatherResults sp fetch dayFn POSITIONS) ∧
     (mkAggregate sp fetch dayFn ts).total_pnl =
        (mkAggregate sp fetch dayFn ts).total_value - TOTAL_COST_BASIS) := by
  refine ⟨?_, ?_, ?_, ?_, rfl, rfl, rfl⟩
  · rcases hfail with h | h <;>
      exact ⟨by simp [computePosition, h, rawFields],
             by simp [computePosition, h, rawFields],
             by simp [computePosition, h, rawFields],
             by simp [computePosition, h, rawFields],
             by simp [computePosition, h, rawFields],
             by simp [computePosition, h, rawFields, mid_of],
             by simp [computePosition, h, rawFields, mid_of, value_of],
             by simp [computePosition, h, rawFields, mid_of, value_of, pnl_of]⟩
  · intro rows hnone
    simp only [fetch_option, List.find?_eq_none]
    intro r hr
    simp [hnone r hr]
  · intro f2 hagree q hq
    rw [hagree q hq]
  · rcases hstale with h | h
    · simp [gather_data, h]
    · rcases hd : cache.data with _ | d
      · simp [gather_data, hd]
      · simp [gather_data, hd, not_lt.mpr h]

/-- Witness for `C4_per_position_isolation`: the first configured
position's fetch finds no matching row while the cache is empty. -/
theorem C4_per_position_isolation_witness :
    (computePosition samplePos none ((fun _ => Except.ok none) samplePos)
        ((fun _ => (0 : ℤ)) samplePos.expiry)).mid = none ∧
    (gather_data ⟨none, 0⟩ 0 (.ok none) (fun _ => Except.ok none)
        (fun _ => 0) "t").1 =
      .ok (mkAggregate none (fun _ => Except.ok none) (fun _ => 0) "t") := by
  have h := C4_per_position_isolation none (fun _ => Except.ok none)
    (fun _ => 0) samplePos (Or.inr rfl) ⟨none, 0⟩ 0 "t" (Or.inl rfl)
  exact ⟨h.1.2.2.2.2.2.1, h.2.2.2.1⟩

/-- A position with a nonzero contract count never produces a present
value equal to zero: `value = contracts * mid * 100` is only computed
when `mid` is truthy, i.e. nonzero. -/
lemma computePosition_value_ne_some_zero (pos : PositionSpec)
    (hc : pos.contracts ≠ 0) (sp : Option ℚ)
    (fetchRes : Except Unit (Option OptionRow)) (dte : ℤ) :
    (computePosition pos sp fetchRes dte).value ≠ some 0 := by
  simp only [computePosition]
  rcases hm : mid_of (rawFields fetchRes).bid (rawFields fetchRes).ask
      (rawFields fetchRes).last with _ | m
  · simp [value_of]
  · by_cases hm0 : m = 0
    · subst hm0; simp [value_of]
    · simp [value_of, hm0, hc]

/-- On a result list without present-but-zero values, the truthiness
filter of src/app.py:120 and the presence filter agree. -/
lemma total_value_eq_present (l : List PositionResult)
    (h : ∀ r ∈ l, r.value ≠ some 0) :
    total_value l = total_value_present l := by
  induction l with
  | nil => rfl
  | cons r t ih =>
      have hr := h r (List.mem_cons_self r t)
      have ht := ih (fun q hq => h q (List.mem_cons_of_mem r hq))
      simp only [total_value, total_value_present, List.filterMap_cons] at ht ⊢
      rcases hv : r.value with _ | v
      · simpa using ht
      · have hv0 : v ≠ 0 := fun h0 => hr (by rw [hv, h0])
        simp only [hv0, if_true, List.sum_cons]
        simp [hv0]
        simpa using ht

/-- Every configured position holds a nonzero number of contracts. -/
lemma POSITIONS_contracts_ne_zero : ∀ p ∈ POSITIONS, p.contracts ≠ 0 := by
  intro p hp
  fin_cases hp <;> simp [POSITIONS]

/-- C6: the aggregate's total value equals the sum of the present
position values — positions with an absent value contribute zero — for
every outcome of the quote and chain fetches (hence for any subset of
positions with absent data), and the total P&L is that total value minus
the fixed total cost basis. -/
theorem C6_portfolio_totals (sp : Option ℚ)
    (fetch : PositionSpec → Except Unit (Option OptionRow))
    (dayFn : String → ℤ) (ts : String) :
    (mkAggregate sp fetch dayFn ts).total_value =
      total_value_present (mkAggregate sp fetch dayFn ts).positions ∧
    (mkAggregate sp fetch dayFn ts).total_pnl =
      (mkAggregate sp fetch dayFn ts).total_value - TOTAL_COST_BASIS := by
  refine ⟨?_, rfl⟩
  show total_value (gatherResults sp fetch dayFn POSITIONS) =
    total_value_present (gatherResults sp fetch dayFn POSITIONS)
  apply total_value_eq_present
  intro r hr
  simp only [gatherResults, List.mem_map] at hr
  obtain ⟨p, hp, rfl⟩ := hr
  exact computePosition_value_ne_some_zero p (POSITIONS_contracts_ne_zero p hp) sp
    (fetch p) (dayFn p.expiry)

/-- C8, counterexample.  The claim says the quote fetcher returns absence
when the matched value is non-numeric.  On the code
(`float(m.group(1)) if m else None`), a body in which the pattern matches
the non-numeric text `N/A` makes `float` raise `ValueError`, which
propagates — the fetcher raises instead of returning absence. -/
theorem C8_counterexample :
    extract_last_price "<i data-last-price=\"N/A\" x>" = some "N/A" ∧
    pyFloat "N/A" = none ∧
    fetch_stock_price "<i data-last-price=\"N/A\" x>" = .error () ∧
    fetch_stock_price "<i data-last-price=\"N/A\" x>" ≠ .ok none := by
  have h : fetch_stock_price "<i data-last-price=\"N/A\" x>" = .error () := rfl
  exact ⟨rfl, rfl, h, by rw [h]; simp⟩

/-- C8, amended: the quote fetcher returns absence of a price (not a
raised error) whenever the extraction pattern does not match the response
body; when the pattern matches, a numeric value is returned as the price
and a non-numeric value makes `float` raise, so an error — not absence —
results. -/
theorem C8_quote_extraction (html : String) :
    (extract_last_price html = none → fetch_stock_price html = .ok none) ∧
    (∀ s, extract_last_price html = some s → pyFloat s = none →
        fetch_stock_price html = .error ()) ∧
    (∀ s x, extract_last_price html = some s → pyFloat s = some x →
        fetch_stock_price html = .ok (some x)) :=
  ⟨fun h => by simp [fetch_stock_price, h],
   fun s hs hp => by simp [fetch_stock_price, hs, hp],
   fun s x hs hp => by simp [fetch_stock_price, hs, hp]⟩

/-- Witness for `C8_quote_extraction`: a body without the pattern yields
absence, and a body carrying the numeric text `12.5` yields that price. -/
theorem C8_quote_extraction_witness :
    fetch_stock_price "<i>no price here</i>" = .ok none ∧
    fetch_stock_price "<i data-last-price=\"12.5\" x>" = .ok (some (25 / 2)) := by
  constructor
  · exact (C8_quote_extraction "<i>no price here</i>").1 rfl
  · have h := (C8_quote_extraction "<i data-last-price=\"12.5\" x>").2.2 "12.5"
      ((1 : ℚ) * ((digitsVal ['1', '2'] : ℚ) + (digitsVal ['5'] : ℚ) / 10 ^ 1)) rfl rfl
    rw [h]
    norm_num [digitsVal, show Char.toNat '1' = 49 from rfl,
      show Char.toNat '2' = 50 from rfl, show Char.toNat '5' = 53 from rfl]

/-- C10: volume and open interest are forwarded without numeric parsing —
when the fetch raises or no row matches they default to the sentinel
string `"--"` while bid, ask and last become `None`, and when a row is
present the raw field string is passed through unchanged (even the text
`"--"`, which for bid is parsed and becomes `None`). -/
theorem C10_vol_oi_raw (pos : PositionSpec) (sp : Option ℚ) (dte : ℤ)
    (row : OptionRow) (s t : String) :
    ((computePosition pos sp (.error ()) dte).vol = some "--" ∧
     (computePosition pos sp (.error ()) dte).oi = some "--" ∧
     (computePosition pos sp (.error ()) dte).bid = none ∧
     (computePosition pos sp (.error ()) dte).ask = none ∧
     (computePosition pos sp (.error ()) dte).last = none) ∧
    ((computePosition pos sp (.ok none) dte).vol = some "--" ∧
     (computePosition pos sp (.ok none) dte).oi = some "--" ∧
     (computePosition pos sp (.ok none) dte).bid = none ∧
     (computePosition pos sp (.ok none) dte).ask = none ∧
     (computePosition pos sp (.ok none) dte).last = none) ∧
    (row.c_Volume = .str s →
      (computePosition pos sp (.ok (some row)) dte).vol = some s) ∧
    (row.c_Openinterest = .str t →
      (computePosition pos sp (.ok (some row)) dte).oi = some t) ∧
    (row.c_Bid = .str "--" →
      (computePosition pos sp (.ok (some row)) dte).bid = none) := by
  refine ⟨⟨rfl, rfl, rfl, rfl, rfl⟩, ⟨rfl, rfl, rfl, rfl, rfl⟩, ?_, ?_, ?_⟩
  · intro h; simp [computePosition, rawFields, h, JField.getD]
  · intro h; simp [computePosition, rawFields, h, JField.getD]
  · intro h; simp [computePosition, rawFields, h, JField.getOpt, parse_val]

/-- Witness for `C10_vol_oi_raw`: a row carrying the non-numeric volume
text `1,234`, open interest `10`, and the placeholder `--` as bid. -/
theorem C10_vol_oi_raw_witness :
    (computePosition samplePos none
        (.ok (some ⟨.str "13.00", .str "--", .null, .null,
                    .str "1,234", .str "10"⟩)) 0).vol = some "1,234" ∧
    (computePosition samplePos none
        (.ok (some ⟨.str "13.00", .str "--", .null, .null,
                    .str "1,234", .str "10"⟩)) 0).oi = some "10" ∧
    (computePosition samplePos none
        (.ok (some ⟨.str "13.00", .str "--", .null, .null,
                    .str "1,234", .str "10"⟩)) 0).bid = none := by
  have h := C10_vol_oi_raw samplePos none 0
    ⟨.str "13.00", .str "--", .null, .null, .str "1,234", .str "10"⟩ "1,234" "10"
  exact ⟨h.2.2.1 rfl, h.2.2.2.1 rfl, h.2.2.2.2 rfl⟩
